import Mathlib

/-
Verification development for the nnsight intervention-graph tracing engine.

Shallow embedding of:
  * src/src/nnsight/module.py   (class Module: accessors, reset/clear/next, wrap, hook)
  * src/engine/contexts/Invoker.py  (class Invoker: scope entry, next)

Python values are modelled as follows: torch tensors and other runtime values
become the inductive type FakeVal; the intervention Graph is a list of nodes,
and a Proxy is the index of its node in that list (Graph.add appends a node
and returns the fresh index); Python None in a node's value slot is
GValue.vnone and the literal True passed for swap nodes is GValue.vtrue.
The tracer's batch bookkeeping (batch_size, batch_start) and the generator's
session state (generation_idx, batch_size, prompts) are explicit records.
External collaborators (prepare_inputs, run_meta, the tokenizer's decode,
torch's fake-tensor-mode detection) are parameters: prepare_inputs' result is
passed in as the list of input-id sequences, decode as a function Nat → String,
and detect_fake_mode as a boolean.
-/

namespace NNS

/-- Runtime values observed during the shape-only pass: an opaque tensor-like
atom, or a tuple such as the (input, input_kwargs) pair the hook records. -/
inductive FakeVal where
  | atom (n : Nat)
  | pair (a b : FakeVal)
deriving DecidableEq

/-- Value slot of a graph node: Python None, a fake (placeholder) value, or
the literal True that the swap setter passes to Graph.add. -/
inductive GValue where
  | vnone
  | vfake (v : FakeVal)
  | vtrue
deriving DecidableEq

/-- One positional argument of a graph node: a reference to an earlier node
(a Proxy), a string key, an integer, or a plain value. -/
inductive Arg where
  | node (idx : Nat)
  | str (s : String)
  | nat (n : Nat)
  | val (v : FakeVal)
deriving DecidableEq

/-- One node of the intervention graph: target operator identifier,
positional arguments, and the value slot. -/
structure Node where
  target : String
  args : List Arg
  value : GValue
deriving DecidableEq

/-- The intervention graph: an append-only list of nodes in creation order. -/
abbrev Graph := List Node

/-- Graph.add appends a node and returns the Proxy for it, here the fresh
node's index (nodes are only ever created this way). -/
def Graph.add (g : Graph) (value : GValue) (target : String) (args : List Arg) :
    Nat × Graph :=
  (g.length, g ++ [⟨target, args, value⟩])

/-- Per-module state of the wrapped Module (module.py __init__): dotted path,
call-iteration counter, accumulated placeholder output/input lists from the
scan pass, and the cached output/input Proxies (None when unset). -/
structure ModuleState where
  module_path : String
  call_iter : Nat
  fake_outputs : List FakeVal
  fake_inputs : List FakeVal
  _output : Option Nat
  _input : Option Nat
deriving DecidableEq

/-- State of the active Tracer consulted by the accessors: session batch size,
batch offset, and the intervention graph. -/
structure TracerState where
  batch_size : Nat
  batch_start : Nat
  graph : Graph
deriving DecidableEq

/-- reset_proxies on a single module (the propagate=False body): drop the
cached output and input Proxies only. -/
def ModuleState.reset_proxies1 (m : ModuleState) : ModuleState :=
  { m with _output := none, _input := none }

/-- reset on a single module: reset_proxies plus zero the call counter. -/
def ModuleState.reset1 (m : ModuleState) : ModuleState :=
  { m.reset_proxies1 with call_iter := 0 }

/-- clear on a single module: reset plus discard the placeholder lists. -/
def ModuleState.clear1 (m : ModuleState) : ModuleState :=
  { m.reset1 with fake_outputs := [], fake_inputs := [] }

/-- next on a single module: advance call_iter by the given iteration count
and reset_proxies (placeholder lists untouched). -/
def ModuleState.next1 (iteration : Nat) (m : ModuleState) : ModuleState :=
  ({ m with call_iter := m.call_iter + iteration }).reset_proxies1

/-- Module.reset_proxies with its propagate flag; the module tree below self
is modelled by the flat list of wrapped descendants that self.modules()
iterates over in the source. -/
def Module.reset_proxies (m : ModuleState) (ds : List ModuleState)
    (propagate : Bool) : ModuleState × List ModuleState :=
  if propagate then (m.reset_proxies1, ds.map ModuleState.reset_proxies1)
  else (m.reset_proxies1, ds)

/-- Module.reset with its propagate flag. -/
def Module.reset (m : ModuleState) (ds : List ModuleState)
    (propagate : Bool) : ModuleState × List ModuleState :=
  if propagate then (m.reset1, ds.map ModuleState.reset1)
  else (m.reset1, ds)

/-- Module.clear with its propagate flag. -/
def Module.clear (m : ModuleState) (ds : List ModuleState)
    (propagate : Bool) : ModuleState × List ModuleState :=
  if propagate then (m.clear1, ds.map ModuleState.clear1)
  else (m.clear1, ds)

/-- Module.next with its propagate flag; as in the source, propagation calls
next on each descendant with the default iteration of 1. -/
def Module.next (iteration : Nat) (m : ModuleState) (ds : List ModuleState)
    (propagate : Bool) : ModuleState × List ModuleState :=
  if propagate then (m.next1 iteration, ds.map (ModuleState.next1 1))
  else (m.next1 iteration, ds)

/-- Placeholder-value selection of the accessors: None when no placeholder was
recorded, the last recorded one when call_iter has run past the list, else the
entry at call_iter. -/
def fakeSel (l : List FakeVal) (i : Nat) : GValue :=
  if l.length = 0 then GValue.vnone
  else if l.length ≤ i then
    match l.getLast? with
    | some v => GValue.vfake v
    | none => GValue.vnone
  else
    match l[i]? with
    | some v => GValue.vfake v
    | none => GValue.vnone

/-- Module.output property getter: on a cache miss, select the placeholder
value, add an "argument" node keyed by the dotted path plus ".output", the
tracer's batch size and offset and the call iteration, and cache the Proxy;
on a cache hit return the cached Proxy unchanged. -/
def Module.output (m : ModuleState) (t : TracerState) :
    Nat × ModuleState × TracerState :=
  match m._output with
  | some p => (p, m, t)
  | none =>
      let fake_output := fakeSel m.fake_outputs m.call_iter
      let r := Graph.add t.graph fake_output "argument"
        [Arg.str (m.module_path ++ ".output"), Arg.nat t.batch_size,
         Arg.nat t.batch_start, Arg.nat m.call_iter]
      (r.1, { m with _output := some r.1 }, { t with graph := r.2 })

/-- Module.input property getter, symmetric to the output getter. -/
def Module.input (m : ModuleState) (t : TracerState) :
    Nat × ModuleState × TracerState :=
  match m._input with
  | some p => (p, m, t)
  | none =>
      let fake_input := fakeSel m.fake_inputs m.call_iter
      let r := Graph.add t.graph fake_input "argument"
        [Arg.str (m.module_path ++ ".input"), Arg.nat t.batch_size,
         Arg.nat t.batch_start, Arg.nat m.call_iter]
      (r.1, { m with _input := some r.1 }, { t with graph := r.2 })

/-- Module.output property setter: read self.output (creating it if unset),
add a "swap" node whose arguments are that Proxy's node and the assigned
value, then drop the cached output Proxy. -/
def Module.setOutput (m : ModuleState) (t : TracerState) (value : Arg) :
    ModuleState × TracerState :=
  let r := Module.output m t
  let a := Graph.add r.2.2.graph GValue.vtrue "swap" [Arg.node r.1, value]
  ({ r.2.1 with _output := none }, { r.2.2 with graph := a.2 })

/-- Module.input property setter, symmetric to the output setter. -/
def Module.setInput (m : ModuleState) (t : TracerState) (value : Arg) :
    ModuleState × TracerState :=
  let r := Module.input m t
  let a := Graph.add r.2.2.graph GValue.vtrue "swap" [Arg.node r.1, value]
  ({ r.2.1 with _input := none }, { r.2.2 with graph := a.2 })

/-- Body of the completion forward hook installed by Module.wrap: in
fake-tensor (shape-only) mode it resets the proxies of the module and its
wrapped descendants, then appends the output and the (input, input_kwargs)
pair to the placeholder lists; outside fake mode it does nothing. -/
def Module.hookBody (fakeMode : Bool) (inp kwargs out : FakeVal)
    (m : ModuleState) (ds : List ModuleState) : ModuleState × List ModuleState :=
  if fakeMode then
    let r := Module.reset_proxies m ds true
    ({ r.1 with fake_outputs := r.1.fake_outputs ++ [out],
                fake_inputs := r.1.fake_inputs ++ [FakeVal.pair inp kwargs] },
     r.2)
  else (m, ds)

/-- Runtime view of one wrapped torch module for the hook bookkeeping: its
Module state, its wrapped descendants, and how many completion forward hooks
have been registered on it (torch fires every registered hook per call). -/
structure HookedModule where
  m : ModuleState
  descendants : List ModuleState
  hooks : Nat
deriving DecidableEq

/-- Hook-registration effect of Module.wrap: the final statement of wrap
unconditionally registers the completion forward hook, so each call adds one
more hook to the module. -/
def Module.wrap (w : HookedModule) : HookedModule :=
  { w with hooks := w.hooks + 1 }

/-- Running a number of registered copies of the completion hook in order. -/
def runHooks (fakeMode : Bool) (inp kwargs out : FakeVal) :
    Nat → ModuleState × List ModuleState → ModuleState × List ModuleState
  | 0, p => p
  | n + 1, p =>
      runHooks fakeMode inp kwargs out n
        (Module.hookBody fakeMode inp kwargs out p.1 p.2)

/-- One forward call of a wrapped module: torch runs every registered forward
hook in registration order, each executing the hook body. -/
def HookedModule.forwardCall (fakeMode : Bool) (inp kwargs out : FakeVal)
    (w : HookedModule) : HookedModule :=
  let r := runHooks fakeMode inp kwargs out w.hooks (w.m, w.descendants)
  { w with m := r.1, descendants := r.2 }

/-- What a name on the wrapped object resolves to after wrapping: the nnsight
intervention accessor property, Python None, or a pre-existing attribute. -/
inductive AttrVal (A : Type) where
  | accessor
  | pyNone
  | orig (a : A)
deriving DecidableEq

/-- Attribute table of a wrapped module for the names output, input,
nns_output and nns_input, plus whether the collision warning was emitted. -/
structure ModuleAttrs (A : Type) where
  output : AttrVal A
  input : AttrVal A
  nns_output : Option (AttrVal A)
  nns_input : Option (AttrVal A)
  warned : Bool
deriving DecidableEq

/-- Conflict handling of Module.wrap. Modelled from the spec: util.wrap (not
under src/) mounts the accessor properties at output and input per section 4.2;
the collision branch itself follows the source: when the object already had an
output or input attribute, warn, mount the accessors at nns_output and
nns_input on a class created for this one object, and setattr output and input
back to the captured originals (getattr's None default when one was absent). -/
def Module.wrapAttrs {A : Type} (original_output original_input : Option A) :
    ModuleAttrs A :=
  if original_output.isSome || original_input.isSome then
    { output := match original_output with
        | some a => AttrVal.orig a
        | none => AttrVal.pyNone
      input := match original_input with
        | some a => AttrVal.orig a
        | none => AttrVal.pyNone
      nns_output := some AttrVal.accessor
      nns_input := some AttrVal.accessor
      warned := true }
  else
    { output := AttrVal.accessor, input := AttrVal.accessor,
      nns_output := none, nns_input := none, warned := false }

/-- Session state of the Generator consulted by the Invoker: generation-step
index, batch size, and the accumulated rendered prompts. -/
structure GeneratorState where
  generation_idx : Nat
  batch_size : Nat
  prompts : List String
deriving DecidableEq

/-- Tokens field of an Invoker after entry: unwrapped to the single element
when the invocation has exactly one example. -/
inductive TokensVal where
  | batch (ts : List (List String))
  | single (ts : List String)
deriving DecidableEq

/-- Ids field of an Invoker after entry, unwrapped like the tokens field. -/
inductive IdsVal where
  | batch (ids : List (List Nat))
  | single (ids : List Nat)
deriving DecidableEq

/-- Invoker fields set by scope entry. -/
structure InvokerResult where
  tokens : TokensVal
  ids : IdsVal
deriving DecidableEq

/-- Invoker.__enter__: zero the generator's generation_idx, take the prepared
input-id sequences (prepare_inputs and the shape-only run_meta are external
and do not touch the generator), decode each id, assign batch_size to the
number of examples of this invocation, extend the prompt list with the
re-rendered prompts, and unwrap tokens and ids when there is one example. -/
def Invoker.enter (decode : Nat → String) (ids : List (List Nat))
    (g : GeneratorState) : GeneratorState × InvokerResult :=
  let g1 := { g with generation_idx := 0 }
  let tokens : List (List String) := ids.map (fun seq => seq.map decode)
  let g2 := { g1 with batch_size := ids.length }
  let g3 := { g2 with
    prompts := g2.prompts ++ tokens.map (fun ts => String.join ts) }
  (g3,
    if tokens.length = 1 then
      ⟨TokensVal.single (tokens.headD []), IdsVal.single (ids.headD [])⟩
    else
      ⟨TokensVal.batch tokens, IdsVal.batch ids⟩)

/-- Invoker.next: advance the generator's generation_idx by one; the filler
shape-only pass it triggers is external and leaves the generator unchanged. -/
def Invoker.next (g : GeneratorState) : GeneratorState :=
  { g with generation_idx := g.generation_idx + 1 }

/-- Entering a sequence of Invoker scopes in order within one session. -/
def Invoker.enterMany (decode : Nat → String) (ls : List (List (List Nat)))
    (g : GeneratorState) : GeneratorState :=
  ls.foldl (fun g ids => (Invoker.enter decode ids g).1) g

/-! Concrete instances used by counterexamples and witnesses. -/

/-- A concrete token decoder. -/
def dec0 : Nat → String := fun _ => "t"

/-- A fresh generator session state. -/
def gen0 : GeneratorState := ⟨0, 0, []⟩

/-- A freshly initialized module state. -/
def m0 : ModuleState := ⟨"m", 0, [], [], none, none⟩

/-- A module whose call counter has run past its placeholder lists. -/
def m1 : ModuleState :=
  ⟨"m", 3, [FakeVal.atom 7, FakeVal.atom 8], [FakeVal.atom 9], none, none⟩

/-- A tracer with batch size one and an empty graph. -/
def t0 : TracerState := ⟨1, 0, []⟩

/-- A fresh unwrapped module with no hooks registered. -/
def w0 : HookedModule := ⟨m0, [], 0⟩

/-- C1 counterexample: entering an Invoker with one example and then one with
two examples leaves the session batch size at 2, the last Invoker's example
count, not at the sum 1 + 2 = 3 of both Invokers' example counts. -/
theorem batch_size_not_sum_cex :
    (Invoker.enter dec0 [[0], [1]] (Invoker.enter dec0 [[0]] gen0).1).1.batch_size ≠
      ([[0]] : List (List Nat)).length + ([[0], [1]] : List (List Nat)).length := by
  decide

/-- C1 (amended): after a sequence of Invoker scope entries within one
session, the session's batch size equals the example count of the last
Invoker alone; each entry overwrites the previous value rather than summing. -/
theorem batch_size_last_invoker (decode : Nat → String)
    (ls : List (List (List Nat))) (idsLast : List (List Nat))
    (g : GeneratorState) :
    (Invoker.enterMany decode (ls ++ [idsLast]) g).batch_size =
      idsLast.length := by
  simp only [Invoker.enterMany, List.foldl_append, List.foldl_cons,
    List.foldl_nil]
  rfl

/-- C3 counterexample: after one Invoker entry and one next() call the
generation index is 1, and entering a second Invoker scope drops it back to
0, a strict decrease within the session. -/
theorem generation_idx_decreases_cex :
    (Invoker.enter dec0 [[0]]
        (Invoker.next (Invoker.enter dec0 [[0]] gen0).1)).1.generation_idx <
      (Invoker.next (Invoker.enter dec0 [[0]] gen0).1).generation_idx := by
  decide

/-- C3 (amended): the generation-step index is reset to zero at every Invoker
scope entry, not only at session start, and each next() call increases it by
exactly one, so it is non-decreasing only within a single Invoker scope. -/
theorem generation_idx_reset_each_enter (decode : Nat → String)
    (ids : List (List Nat)) (g : GeneratorState) (n : Nat) :
    (Invoker.enter decode ids g).1.generation_idx = 0 ∧
    (Invoker.next g).generation_idx = g.generation_idx + 1 ∧
    (Invoker.next^[n] g).generation_idx = g.generation_idx + n := by
  refine ⟨rfl, rfl, ?_⟩
  induction n generalizing g with
  | zero => rfl
  | succ k ih =>
      rw [Function.iterate_succ_apply, ih (Invoker.next g)]
      show g.generation_idx + 1 + k = g.generation_idx + (k + 1)
      omega

/-- C2 counterexample: wrapping a fresh module twice and running one
shape-only forward call appends two placeholder outputs, while wrapping once
appends one, so the second wrap is not a no-op and two hooks fire per call. -/
theorem wrap_twice_not_noop_cex :
    (HookedModule.forwardCall true (FakeVal.atom 0) (FakeVal.atom 1)
        (FakeVal.atom 2) (Module.wrap (Module.wrap w0))).m.fake_outputs.length = 2 ∧
    (HookedModule.forwardCall true (FakeVal.atom 0) (FakeVal.atom 1)
        (FakeVal.atom 2) (Module.wrap w0)).m.fake_outputs.length = 1 := by
  decide

/-- C2 (amended): wrap is not idempotent: every call registers the completion
forward hook again, so after two wrap calls on a previously unwrapped module
two hooks fire per module call and a shape-only call appends the observed
output twice to the placeholder list instead of once. -/
theorem wrap_registers_hook_each_time (w : HookedModule) (wm : ModuleState)
    (wds : List ModuleState) (i k o : FakeVal) (h : w = ⟨wm, wds, 0⟩) :
    (Module.wrap w).hooks = w.hooks + 1 ∧
    (Module.wrap (Module.wrap w)).hooks = w.hooks + 2 ∧
    (HookedModule.forwardCall true i k o
        (Module.wrap (Module.wrap w))).m.fake_outputs =
      wm.fake_outputs ++ [o, o] ∧
    (HookedModule.forwardCall true i k o
        (Module.wrap w)).m.fake_outputs =
      wm.fake_outputs ++ [o] := by
  subst h
  refine ⟨rfl, rfl, ?_, ?_⟩ <;>
    simp [HookedModule.forwardCall, Module.wrap, runHooks, Module.hookBody,
      Module.reset_proxies, ModuleState.reset_proxies1]

/-- Witness for the amended C2 theorem at a concrete fresh module. -/
theorem wrap_registers_hook_each_time_w :
    (Module.wrap w0).hooks = w0.hooks + 1 :=
  (wrap_registers_hook_each_time w0 m0 [] (FakeVal.atom 0) (FakeVal.atom 0)
    (FakeVal.atom 0) rfl).1

/-- C4: next(by=k) on a module with propagation off advances the
call-iteration counter by exactly k and clears the cached output and input
Proxies, while leaving the placeholder lists, the descendants, and the
tracer's existing graph nodes unchanged; the next read of output then appends
a fresh argument node for the advanced iteration after the old nodes. -/
theorem module_next_spec (m : ModuleState) (ds : List ModuleState)
    (t : TracerState) (k : Nat) (h : 1 ≤ k) :
    (Module.next k m ds false).1.call_iter = m.call_iter + k ∧
    (Module.next k m ds false).1._output = none ∧
    (Module.next k m ds false).1._input = none ∧
    (Module.next k m ds false).1.fake_outputs = m.fake_outputs ∧
    (Module.next k m ds false).1.fake_inputs = m.fake_inputs ∧
    (Module.next k m ds false).2 = ds ∧
    (Module.output (Module.next k m ds false).1 t).2.2.graph =
      t.graph ++ [⟨"argument",
        [Arg.str (m.module_path ++ ".output"), Arg.nat t.batch_size,
         Arg.nat t.batch_start, Arg.nat (m.call_iter + k)],
        fakeSel m.fake_outputs (m.call_iter + k)⟩] := by
  refine ⟨rfl, rfl, rfl, rfl, rfl, rfl, ?_⟩
  simp [Module.next, ModuleState.next1, ModuleState.reset_proxies1,
    Module.output, Graph.add]

/-- Witness for the C4 theorem at k = 2 on a fresh module. -/
theorem module_next_spec_w :
    (Module.next 2 m0 [] false).1.call_iter = m0.call_iter + 2 :=
  (module_next_spec m0 [] t0 2 (by decide)).1

/-- C7: after clear() the placeholder lists are empty and the call counter is
zero, and a subsequent read of output appends an argument node whose
placeholder value slot is None, never a stale placeholder. -/
theorem module_clear_spec (m : ModuleState) (ds : List ModuleState)
    (t : TracerState) :
    (Module.clear m ds true).1.fake_outputs = [] ∧
    (Module.clear m ds true).1.fake_inputs = [] ∧
    (Module.clear m ds true).1.call_iter = 0 ∧
    (Module.output (Module.clear m ds true).1 t).2.2.graph =
      t.graph ++ [⟨"argument",
        [Arg.str (m.module_path ++ ".output"), Arg.nat t.batch_size,
         Arg.nat t.batch_start, Arg.nat 0], GValue.vnone⟩] := by
  refine ⟨rfl, rfl, rfl, ?_⟩
  simp [Module.clear, ModuleState.clear1, ModuleState.reset1,
    ModuleState.reset_proxies1, Module.output, fakeSel, Graph.add]

/-- C10: when the completion hook fires in fake-tensor (shape-only) mode it
clears the cached Proxies of the module and of every wrapped descendant,
appends the output and the (input, input_kwargs) pair to the module's
placeholder lists, and leaves every call-iteration counter unchanged; outside
fake mode it changes no module state at all. -/
theorem hook_effect_spec (inp kw out : FakeVal) (m : ModuleState)
    (ds : List ModuleState) :
    Module.hookBody true inp kw out m ds =
      ({ m with _output := none, _input := none,
                fake_outputs := m.fake_outputs ++ [out],
                fake_inputs := m.fake_inputs ++ [FakeVal.pair inp kw] },
       ds.map ModuleState.reset_proxies1) ∧
    (Module.hookBody true inp kw out m ds).1.call_iter = m.call_iter ∧
    (Module.hookBody true inp kw out m ds).2.map ModuleState.call_iter =
      ds.map ModuleState.call_iter ∧
    Module.hookBody false inp kw out m ds = (m, ds) := by
  refine ⟨rfl, rfl, ?_, rfl⟩
  simp [Module.hookBody, Module.reset_proxies, ModuleState.reset_proxies1,
    List.map_map, Function.comp]

/-- C5: assigning a value to output (resp. input) reads the current output
(resp. input) Proxy and appends exactly one swap node whose arguments are
that Proxy's node and the assigned value, then clears the cached Proxy, so a
subsequent read appends a fresh argument node whose index differs from the
node that was swapped. -/
theorem setter_swap_spec (m : ModuleState) (t : TracerState) (v : Arg)
    (hwo : ∀ q, m._output = some q → q < t.graph.length)
    (hwi : ∀ q, m._input = some q → q < t.graph.length) :
    (Module.setOutput m t v).2.graph =
      (Module.output m t).2.2.graph ++
        [⟨"swap", [Arg.node (Module.output m t).1, v], GValue.vtrue⟩] ∧
    (Module.setOutput m t v).1._output = none ∧
    (Module.output (Module.setOutput m t v).1 (Module.setOutput m t v).2).1 =
      (Module.setOutput m t v).2.graph.length ∧
    (Module.output m t).1 < (Module.setOutput m t v).2.graph.length ∧
    (Module.setInput m t v).2.graph =
      (Module.input m t).2.2.graph ++
        [⟨"swap", [Arg.node (Module.input m t).1, v], GValue.vtrue⟩] ∧
    (Module.setInput m t v).1._input = none ∧
    (Module.input (Module.setInput m t v).1 (Module.setInput m t v).2).1 =
      (Module.setInput m t v).2.graph.length ∧
    (Module.input m t).1 < (Module.setInput m t v).2.graph.length := by
  refine ⟨?_, ?_, ?_, ?_, ?_, ?_, ?_, ?_⟩
  · cases ho2 : m._output <;>
      simp [Module.setOutput, Module.output, Graph.add, ho2]
  · cases ho2 : m._output <;>
      simp [Module.setOutput, Module.output, Graph.add, ho2]
  · cases ho2 : m._output <;>
      simp [Module.setOutput, Module.output, Graph.add, ho2]
  · cases ho2 : m._output with
    | none => simp [Module.setOutput, Module.output, Graph.add, ho2]
    | some q =>
        have hq := hwo q ho2
        simp [Module.setOutput, Module.output, Graph.add, ho2]
        omega
  · cases hi2 : m._input <;>
      simp [Module.setInput, Module.input, Graph.add, hi2]
  · cases hi2 : m._input <;>
      simp [Module.setInput, Module.input, Graph.add, hi2]
  · cases hi2 : m._input <;>
      simp [Module.setInput, Module.input, Graph.add, hi2]
  · cases hi2 : m._input with
    | none => simp [Module.setInput, Module.input, Graph.add, hi2]
    | some q =>
        have hq := hwi q hi2
        simp [Module.setInput, Module.input, Graph.add, hi2]
        omega

/-- Witness for the C5 theorem on a fresh module and tracer. -/
theorem setter_swap_spec_w :
    (Module.setOutput m0 t0 (Arg.val (FakeVal.atom 5))).2.graph =
      (Module.output m0 t0).2.2.graph ++
        [⟨"swap", [Arg.node (Module.output m0 t0).1, Arg.val (FakeVal.atom 5)],
          GValue.vtrue⟩] :=
  (setter_swap_spec m0 t0 (Arg.val (FakeVal.atom 5))
    (fun q h => by simp [m0] at h) (fun q h => by simp [m0] at h)).1

/-- C6: when the placeholder output (resp. input) list is non-empty and the
call counter has reached or passed its length, reading output (resp. input)
still succeeds and the created argument node carries the last recorded
placeholder as its value. -/
theorem accessor_overflow_last_spec (m : ModuleState) (t : TracerState)
    (h1 : m.fake_outputs ≠ []) (h2 : m.fake_outputs.length ≤ m.call_iter)
    (h3 : m._output = none)
    (h4 : m.fake_inputs ≠ []) (h5 : m.fake_inputs.length ≤ m.call_iter)
    (h6 : m._input = none) :
    (Module.output m t).2.2.graph =
      t.graph ++ [⟨"argument",
        [Arg.str (m.module_path ++ ".output"), Arg.nat t.batch_size,
         Arg.nat t.batch_start, Arg.nat m.call_iter],
        GValue.vfake (m.fake_outputs.getLast h1)⟩] ∧
    (Module.input m t).2.2.graph =
      t.graph ++ [⟨"argument",
        [Arg.str (m.module_path ++ ".input"), Arg.nat t.batch_size,
         Arg.nat t.batch_start, Arg.nat m.call_iter],
        GValue.vfake (m.fake_inputs.getLast h4)⟩] := by
  have e1 : fakeSel m.fake_outputs m.call_iter =
      GValue.vfake (m.fake_outputs.getLast h1) := by
    unfold fakeSel
    rw [if_neg (fun hc => h1 (List.length_eq_zero.mp hc)), if_pos h2,
      List.getLast?_eq_getLast_of_ne_nil h1]
  have e2 : fakeSel m.fake_inputs m.call_iter =
      GValue.vfake (m.fake_inputs.getLast h4) := by
    unfold fakeSel
    rw [if_neg (fun hc => h4 (List.length_eq_zero.mp hc)), if_pos h5,
      List.getLast?_eq_getLast_of_ne_nil h4]
  refine ⟨?_, ?_⟩ <;>
    simp [Module.output, Module.input, h3, h6, Graph.add, e1, e2]

/-- Witness for the C6 theorem on a module whose counter ran past both
placeholder lists. -/
theorem accessor_overflow_last_spec_w :
    (Module.output m1 t0).2.2.graph =
      t0.graph ++ [⟨"argument",
        [Arg.str (m1.module_path ++ ".output"), Arg.nat t0.batch_size,
         Arg.nat t0.batch_start, Arg.nat m1.call_iter],
        GValue.vfake (m1.fake_outputs.getLast (by decide))⟩] :=
  (accessor_overflow_last_spec m1 t0 (by decide) (by decide) rfl
    (by decide) (by decide) rfl).1

/-- C8: the first read of output (resp. input) in a call iteration appends
exactly one argument node carrying the dotted path suffixed with ".output"
(resp. ".input"), the tracer's batch size and offset, and the call iteration,
returns the fresh Proxy and caches it; a second read returns the same cached
Proxy and leaves the graph unchanged. -/
theorem accessor_first_access_spec (m : ModuleState) (t : TracerState)
    (ho : m._output = none) (hi : m._input = none) :
    (Module.output m t).1 = t.graph.length ∧
    (Module.output m t).2.1 = { m with _output := some t.graph.length } ∧
    (Module.output m t).2.2.graph = t.graph ++ [⟨"argument",
        [Arg.str (m.module_path ++ ".output"), Arg.nat t.batch_size,
         Arg.nat t.batch_start, Arg.nat m.call_iter],
        fakeSel m.fake_outputs m.call_iter⟩] ∧
    Module.output (Module.output m t).2.1 (Module.output m t).2.2 =
      ((Module.output m t).1, (Module.output m t).2.1,
       (Module.output m t).2.2) ∧
    (Module.input m t).1 = t.graph.length ∧
    (Module.input m t).2.1 = { m with _input := some t.graph.length } ∧
    (Module.input m t).2.2.graph = t.graph ++ [⟨"argument",
        [Arg.str (m.module_path ++ ".input"), Arg.nat t.batch_size,
         Arg.nat t.batch_start, Arg.nat m.call_iter],
        fakeSel m.fake_inputs m.call_iter⟩] ∧
    Module.input (Module.input m t).2.1 (Module.input m t).2.2 =
      ((Module.input m t).1, (Module.input m t).2.1,
       (Module.input m t).2.2) := by
  refine ⟨?_, ?_, ?_, ?_, ?_, ?_, ?_, ?_⟩ <;>
    simp [Module.output, Module.input, ho, hi, Graph.add]

/-- Witness for the C8 theorem on a fresh module and tracer. -/
theorem accessor_first_access_spec_w :
    (Module.output m0 t0).1 = t0.graph.length :=
  (accessor_first_access_spec m0 t0 rfl rfl).1

/-- C9: wrapping an object that already exposes an output or input attribute
does not fail: the warning is emitted, the captured originals stay reachable
under output and input, the intervention accessors are mounted at nns_output
and nns_input, and a module wrapped without such a collision keeps the plain
accessor mounting, so the renaming is scoped to the colliding object. -/
theorem wrap_collision_spec {A : Type} (oo oi : Option A)
    (h : oo.isSome = true ∨ oi.isSome = true) :
    (Module.wrapAttrs oo oi).warned = true ∧
    (Module.wrapAttrs oo oi).nns_output = some AttrVal.accessor ∧
    (Module.wrapAttrs oo oi).nns_input = some AttrVal.accessor ∧
    (∀ a, oo = some a → (Module.wrapAttrs oo oi).output = AttrVal.orig a) ∧
    (∀ a, oi = some a → (Module.wrapAttrs oo oi).input = AttrVal.orig a) ∧
    Module.wrapAttrs (A := A) none none =
      ⟨AttrVal.accessor, AttrVal.accessor, none, none, false⟩ := by
  have hb : (oo.isSome || oi.isSome) = true := by
    rcases h with h | h <;> simp [h]
  refine ⟨?_, ?_, ?_, ?_, ?_, rfl⟩
  · simp [Module.wrapAttrs, hb]
  · simp [Module.wrapAttrs, hb]
  · simp [Module.wrapAttrs, hb]
  · intro a ha
    simp [Module.wrapAttrs, hb, ha]
  · intro a ha
    simp [Module.wrapAttrs, hb, ha]

/-- Witness for the C9 theorem with a pre-existing output attribute. -/
theorem wrap_collision_spec_w :
    (Module.wrapAttrs (A := Nat) (some 5) none).warned = true :=
  (wrap_collision_spec (some 5) none (Or.inl rfl)).1

end NNS
